import Mathlib

/-!
Verification of the mobius-hotline-client file-transfer core.

Shallow embedding of the transfer subsystem:
* the 16-byte HTXF transfer-port handshake (`performFileTransfer` /
  `performFileUpload`),
* the AppleDouble sidecar header writer (`writeAppleDoubleHeader`) and the
  sidecar read-back done on upload (`sendFlattenedFileObject`),
* the progress-tracking copy loop (`copyWithProgress` /
  `copyWithProgressUpload` — the two functions are textually identical),
* the task registry (`TaskManager.GetCompleted`),
* the download/upload orchestration pipelines and the Task status life cycle.

Bytes are modelled as `Nat` values (each < 256 where they come from real
byte writes); byte buffers are `List Nat`.  Machine integers are `Nat`/`Int`
with explicit wrap-around where it matters.  The filesystem and the network
are modelled as explicit data: a `List Nat` byte stream for a connection and
`Bool` flags for the success of each fallible I/O step.
-/

namespace Mobius

/-! ## Byte-level helpers (encoding/binary big-endian) -/

/-- `binary.BigEndian.PutUint32`: the four big-endian bytes of `v`
(the value is reduced mod 2^32 byte by byte, matching the `uint32` cast). -/
def be32 (v : Nat) : List Nat :=
  [v / 16777216 % 256, v / 65536 % 256, v / 256 % 256, v % 256]

/-- `binary.BigEndian.PutUint16`: the two big-endian bytes of `v`. -/
def be16 (v : Nat) : List Nat :=
  [v / 256 % 256, v % 256]

/-- `binary.BigEndian.Uint32` applied to the first four bytes of a buffer. -/
def readBe32 (b : List Nat) : Nat :=
  match b with
  | b0 :: b1 :: b2 :: b3 :: _ => ((b0 * 256 + b1) * 256 + b2) * 256 + b3
  | _ => 0

/-- `binary.BigEndian.Uint16` applied to the first two bytes of a buffer. -/
def readBe16 (b : List Nat) : Nat :=
  match b with
  | b0 :: b1 :: _ => b0 * 256 + b1
  | _ => 0

/-- Go's `copy(dst[off:off+len(src)], src)` on a byte slice: overwrite
`dst` starting at `off` with `src`, truncated at the end of `dst`. -/
def writeAt (dst : List Nat) (off : Nat) (src : List Nat) : List Nat :=
  dst.take off ++ src.take (dst.length - off) ++ dst.drop (off + src.length)

/-! ## TransferChannel: the 16-byte HTXF handshake

`performFileTransfer` (part_006 lines 296-309) and `performFileUpload`
(part_006 lines 623-636) build the handshake identically:
a 16-byte zero buffer, `copy(handshake[0:4], "HTXF")`,
`copy(handshake[4:8], refNum[:])`,
`binary.BigEndian.PutUint32(handshake[8:12], transferSize)`,
bytes 12-16 left as zeros. -/

/-- The 16-byte HTXF handshake as built by `performFileTransfer` and
`performFileUpload`.  `refNum` is the `[4]byte` reference number. -/
def buildHandshake (refNum : List Nat) (transferSize : Nat) : List Nat :=
  let h := List.replicate 16 0
  let h := writeAt h 0 [0x48, 0x54, 0x58, 0x46]
  let h := writeAt h 4 refNum
  writeAt h 8 (be32 transferSize)

/-! ## FileFormatCodec: AppleDouble sidecar header

`writeAppleDoubleHeader` (part_006 lines 503-544) performs seven sequential
writes: magic, version, 16 filler zeros, entry count 1, entry ID 2,
offset 0x52 = 82, and the big-endian resource-fork length. -/

/-- The bytes emitted by `writeAppleDoubleHeader` for a resource fork of
`resourceForkSize` bytes, in the order the Go code writes them. -/
def writeAppleDoubleHeader (resourceForkSize : Nat) : List Nat :=
  [0x00, 0x05, 0x16, 0x07] ++
  [0x00, 0x02, 0x00, 0x00] ++
  List.replicate 16 0 ++
  [0x00, 0x01] ++
  [0x00, 0x00, 0x00, 0x02] ++
  [0x00, 0x00, 0x00, 0x52] ++
  be32 resourceForkSize

/-- The sidecar file produced on download: the AppleDouble header followed
by the resource-fork payload (part_006 lines 416-426, the `CopyN` of the
resource fork into `resFile`). -/
def sidecarFile (payload : List Nat) : List Nat :=
  writeAppleDoubleHeader payload.length ++ payload

/-- Reading a sidecar back on upload: `sendFlattenedFileObject`
(part_006 lines 657-667) seeks to offset 82 and takes
`size − 82` bytes, i.e. everything after the first 82 bytes. -/
def sidecarReadBack (fileContents : List Nat) : List Nat :=
  fileContents.drop 82

/-! ## Task model and TaskManager (part_013 lines 8-87) -/

/-- `TaskStatus`: the four-state life cycle of a transfer task. -/
inductive TaskStatus
  | pending
  | active
  | completed
  | failed
deriving DecidableEq, Repr

/-- The fields of a `Task` record relevant to the verified claims. -/
structure Task where
  status : TaskStatus
  totalBytes : Nat
  transferredBytes : Nat
  error : Option String
deriving DecidableEq, Repr

/-- A registry entry as `TaskManager` sees it: an ID and a status. -/
structure TMTask where
  id : String
  status : TaskStatus
deriving DecidableEq, Repr

/-- The loop body of `TaskManager.GetCompleted` (part_013 lines 74-87):
walk the (already reversed) insertion order, stop when `limit` items have
been collected, keep only Completed/Failed tasks. -/
def getCompletedLoop : Nat → List TMTask → List TMTask
  | _, [] => []
  | limit, t :: rest =>
    if limit = 0 then []
    else if t.status = TaskStatus.completed ∨ t.status = TaskStatus.failed then
      t :: getCompletedLoop (limit - 1) rest
    else getCompletedLoop limit rest

/-- `TaskManager.GetCompleted`: iterate `tm.order` from newest to oldest
(insertion order reversed) collecting at most `limit` terminal tasks.
`order` is the insertion-ordered task list (Add appends). -/
def GetCompleted (order : List TMTask) (limit : Nat) : List TMTask :=
  getCompletedLoop limit order.reverse

/-- The Bool predicate used by `GetCompleted`'s filter characterisation. -/
def isCompletedOrFailed (t : TMTask) : Bool :=
  decide (t.status = TaskStatus.completed ∨ t.status = TaskStatus.failed)

/-! ## ProgressReporter: the copy loop

`copyWithProgress` (part_006 lines 434-482) and `copyWithProgressUpload`
(lines 778-826) are textually identical: read into a 32 KB buffer capped at
`size − written`, write what was read, break with a nil error on `io.EOF`,
return the error on any other read error or on a write error.  The source
reader is modelled as a list of read outcomes, one per `Read` call; a real
reader keeps returning `io.EOF` once exhausted, so an exhausted outcome
list behaves as EOF. -/

/-- One outcome of a `src.Read(buf[:toRead])` call: some bytes with a nil
error, `(0, io.EOF)`, or `(0, err)` for a non-EOF error. -/
inductive ReadResult
  | chunk (data : List Nat)
  | eof
  | ioError
deriving DecidableEq, Repr

/-- The error returned by the copy loop. -/
inductive CopyError
  | writeErr
  | readErr
deriving DecidableEq, Repr

/-- Result of the copy loop: bytes written (`task.TransferredBytes`), the
bytes that reached the destination, the unconsumed part of the source, and
the returned error (`none` = the loop returned nil). -/
structure CopyResult where
  written : Nat
  out : List Nat
  rest : List ReadResult
  error : Option CopyError
deriving DecidableEq, Repr

/-- The 32 KB buffer size of `copyWithProgress`. -/
def bufSize : Nat := 32 * 1024

/-- The `for written < size` loop of `copyWithProgress` /
`copyWithProgressUpload`.  A `chunk` read yields at most
`toRead = min bufSize (size − written)` bytes (a `Read` never returns more
than the slice it is handed); on a write failure the loop returns the write
error before counting the bytes; `eof` breaks out of the loop with a nil
error regardless of `written`; `ioError` is returned. -/
def copyLoop (dstOk : Bool) (size : Nat) (src : List ReadResult)
    (written : Nat) (out : List Nat) : CopyResult :=
  if written < size then
    match src with
    | [] => ⟨written, out, [], none⟩
    | ReadResult.chunk data :: rest =>
      let toRead := min bufSize (size - written)
      let got := data.take toRead
      if 0 < got.length ∧ dstOk = false then
        ⟨written, out, rest, some CopyError.writeErr⟩
      else
        copyLoop dstOk size rest (written + got.length) (out ++ got)
    | ReadResult.eof :: rest => ⟨written, out, rest, none⟩
    | ReadResult.ioError :: rest => ⟨written, out, rest, some CopyError.readErr⟩
  else ⟨written, out, src, none⟩

/-- `copyWithProgress(dst, src, size, task)`: run the loop from zero bytes
written.  `dstOk` models whether writes to the destination succeed. -/
def copyWithProgress (dstOk : Bool) (src : List ReadResult) (size : Nat) : CopyResult :=
  copyLoop dstOk size src 0 []

/-! ## TransferOrchestrator: download pipeline

`performFileTransfer` (part_006 lines 264-432).  The transfer connection is
modelled as the byte stream the server delivers (`stream`) plus a flag
saying whether the stream's end is a clean EOF or an I/O error
(`errOnExhaust`); each fallible local step gets a success flag. -/

/-- `io.ReadFull` / exact-length read: `n` bytes or failure.  (`io.ReadFull`
and `io.CopyN` turn a short stream into an error.) -/
def readN (n : Nat) (s : List Nat) : Option (List Nat × List Nat) :=
  if n ≤ s.length then some (s.take n, s.drop n) else none

/-- The environment of one `performFileTransfer` run. -/
structure DownloadEnv where
  /-- `m.dialTransfer` succeeds. -/
  dialOk : Bool
  /-- the `conn.Write(handshake)` succeeds. -/
  handshakeOk : Bool
  /-- `os.MkdirAll` succeeds. -/
  mkdirOk : Bool
  /-- `os.Create(localPath)` succeeds. -/
  createOk : Bool
  /-- the bytes the transfer connection delivers after the handshake. -/
  stream : List Nat
  /-- `true`: the stream ends in a non-EOF read error; `false`: clean EOF. -/
  errOnExhaust : Bool
  /-- writes of data-fork bytes to the local file succeed. -/
  fileWriteOk : Bool
  /-- `os.Create` for the sidecar file succeeds. -/
  resCreateOk : Bool
  /-- `writeAppleDoubleHeader` into the sidecar file succeeds. -/
  resHeaderWriteOk : Bool
deriving DecidableEq, Repr

/-- Result of one `performFileTransfer` run.  `status`/`error` are the
Task fields the worker leaves behind (the deferred block turns a
still-Active status into Completed); `transferred` is the final
`task.TransferredBytes`; `fileBytes` is the local file's contents;
`dataForkSize` records the size declared in the data-fork header (0 when
the run fails before reading it); `sidecarBytes` is the sidecar file's
contents (`none` when no sidecar file was created); `dataForkDone` records
whether the run got past the data-fork copy. -/
structure DownloadResult where
  status : TaskStatus
  error : Option String
  transferred : Nat
  fileBytes : List Nat
  dataForkSize : Nat
  sidecarBytes : Option (List Nat)
  dataForkDone : Bool
deriving DecidableEq, Repr

/-- The data-fork copy as it happens inside the pipeline, specialised to a
byte-stream source: `copyWithProgress(file, conn, dataSize, task)`.
Reading from the connection yields the stream's bytes (capped per read at
`size − written`, so never more than `size` in total); when the stream runs
out early the read returns EOF (loop breaks, nil error) or an I/O error
according to `errOnExhaust`.  `ok = false` models a non-nil return. -/
structure PipeCopy where
  written : Nat
  fileBytes : List Nat
  rest : List Nat
  ok : Bool
deriving DecidableEq, Repr

/-- Outcome of the in-pipeline data-fork copy over a byte stream. -/
def pipeCopyData (size : Nat) (avail : List Nat)
    (fileWriteOk errOnExhaust : Bool) : PipeCopy :=
  if size = 0 then ⟨0, [], avail, true⟩
  else if avail.length = 0 then ⟨0, [], avail, !errOnExhaust⟩
  else if fileWriteOk = false then ⟨0, [], avail, false⟩
  else
    let w := min size avail.length
    ⟨w, avail.take w, avail.drop w, decide (w = size) || !errOnExhaust⟩

/-- The Task byte counters and stage label at one of the failure-return
points of `performFileTransfer`. -/
structure DataFail where
  msg : String
  transferred : Nat
  fileBytes : List Nat
  dataForkSize : Nat
deriving DecidableEq, Repr

/-- The state after `performFileTransfer` got past the data-fork copy
(part_006 line 388): counters, declared data-fork size, the fork count
from the FFO header, and the unread remainder of the stream. -/
structure DataPhaseOk where
  transferred : Nat
  fileBytes : List Nat
  dataForkSize : Nat
  forkCount : Nat
  rest : List Nat
deriving DecidableEq, Repr

/-- `performFileTransfer` up to and including the data-fork copy
(part_006 lines 285-388): dial, handshake, mkdir, create, read the 24-byte
FFO header (fork count at [22:24]), read and discard the info fork, read
the data-fork header, stream `dataSize` bytes to the local file.  Each
failure returns early with its stage label (`Sum.inl`); these are exactly
the paths on which the worker sets the task Failed. -/
def dataPhase (env : DownloadEnv) : DataFail ⊕ DataPhaseOk :=
  if env.dialOk = false then Sum.inl ⟨"connection failed", 0, [], 0⟩
  else if env.handshakeOk = false then Sum.inl ⟨"handshake failed", 0, [], 0⟩
  else if env.mkdirOk = false then Sum.inl ⟨"mkdir failed", 0, [], 0⟩
  else if env.createOk = false then Sum.inl ⟨"create file failed", 0, [], 0⟩
  else
    match readN 24 env.stream with
    | none => Sum.inl ⟨"read FFO header failed", 0, [], 0⟩
    | some (ffoHeader, s1) =>
      match readN 16 s1 with
      | none => Sum.inl ⟨"read info fork header failed", 0, [], 0⟩
      | some (infoHeader, s2) =>
        match readN (readBe32 (infoHeader.drop 12)) s2 with
        | none => Sum.inl ⟨"read info fork failed", 0, [], 0⟩
        | some (_, s3) =>
          match readN 16 s3 with
          | none => Sum.inl ⟨"read data fork header failed", 0, [], 0⟩
          | some (dataHeader, s4) =>
            if (pipeCopyData (readBe32 (dataHeader.drop 12)) s4
                env.fileWriteOk env.errOnExhaust).ok = false then
              Sum.inl ⟨"data transfer failed",
                (pipeCopyData (readBe32 (dataHeader.drop 12)) s4
                  env.fileWriteOk env.errOnExhaust).written,
                (pipeCopyData (readBe32 (dataHeader.drop 12)) s4
                  env.fileWriteOk env.errOnExhaust).fileBytes,
                readBe32 (dataHeader.drop 12)⟩
            else
              Sum.inr ⟨(pipeCopyData (readBe32 (dataHeader.drop 12)) s4
                  env.fileWriteOk env.errOnExhaust).written,
                (pipeCopyData (readBe32 (dataHeader.drop 12)) s4
                  env.fileWriteOk env.errOnExhaust).fileBytes,
                readBe32 (dataHeader.drop 12), readBe16 (ffoHeader.drop 22),
                (pipeCopyData (readBe32 (dataHeader.drop 12)) s4
                  env.fileWriteOk env.errOnExhaust).rest⟩

/-- The resource-fork section of `performFileTransfer` (part_006 lines
390-429).  It only ever produces the sidecar file: every failure in it —
short resource header, `os.Create` failure, header-write failure, short
payload — is logged and ignored, never touching the task.  Returns the
sidecar file's contents, `none` when no usable file was created (a partial
payload still leaves a file: `CopyN` wrote what arrived). -/
def resourcePhase (env : DownloadEnv) (d : DataPhaseOk) : Option (List Nat) :=
  if d.forkCount = 3 then
    match readN 16 d.rest with
    | none => none
    | some (resHeader, s5) =>
      if env.resCreateOk = false then none
      else if env.resHeaderWriteOk = false then some []
      else
        some (writeAppleDoubleHeader (readBe32 (resHeader.drop 12)) ++
          s5.take (min (readBe32 (resHeader.drop 12)) s5.length))
  else none

/-- `performFileTransfer` (download worker), part_006 lines 264-432,
including the deferred block: a failure in `dataPhase` leaves the task
Failed with the stage-labelled error; once the data fork is copied the
status is still Active whatever happens in the resource-fork section, so
the deferred block completes the task with a nil error. -/
def performFileTransfer (env : DownloadEnv) : DownloadResult :=
  match dataPhase env with
  | Sum.inl f =>
    ⟨TaskStatus.failed, some f.msg, f.transferred, f.fileBytes, f.dataForkSize, none, false⟩
  | Sum.inr d =>
    ⟨TaskStatus.completed, none, d.transferred, d.fileBytes, d.dataForkSize,
      resourcePhase env d, true⟩

/-! ## Message handlers mutating the Task (handlers_msg.go / part_013) -/

/-- A freshly created download task (part_011 lines 2382-2389): Pending,
no byte counts yet. -/
def newDownloadTask : Task :=
  ⟨TaskStatus.pending, 0, 0, none⟩

/-- `handleDownloadReplyMsg` (handlers_msg.go lines 636-650): set
`TotalBytes` to the control channel's declared transfer size and the
status to Active, then start the worker. -/
def handleDownloadReply (t : Task) (transferSize : Nat) : Task :=
  { t with totalBytes := transferSize, status := TaskStatus.active }

/-- The Task as the download worker leaves it: the worker wrote
`TransferredBytes` during the copy and its terminal status/error
(directly and again via `handleTaskStatusMsg`). -/
def finishDownloadTask (t : Task) (r : DownloadResult) : Task :=
  { t with status := r.status, transferredBytes := r.transferred, error := r.error }

/-- `handleTaskStatusMsg` (handlers_msg.go lines 618-634): unconditionally
apply the status and error carried by the message. -/
def applyTaskStatusMsg (t : Task) (s : TaskStatus) (e : Option String) : Task :=
  { t with status := s, error := e }

/-! ## TransferOrchestrator: upload pipeline

`performFileUpload` + `sendFlattenedFileObject` + `copyWithProgressUpload`
(part_006 lines 546-826).  `createInfoFork` delegates to the external
`hotline` library, so the info-fork bytes are a parameter of the run. -/

/-- The environment of one `performFileUpload` run.  `sidecar` is the
contents of the `._name` AppleDouble file when it exists, is not a
directory and can be opened (`none` otherwise). -/
structure UploadEnv where
  /-- `os.Open(task.LocalPath)` succeeds. -/
  openOk : Bool
  /-- `file.Stat()` succeeds. -/
  statOk : Bool
  /-- the local file's bytes (`fileInfo.Size()` = its length). -/
  fileData : List Nat
  /-- contents of the sidecar file, when present. -/
  sidecar : Option (List Nat)
  /-- the bytes produced by `createInfoFork` (external library call). -/
  infoFork : List Nat
  /-- `m.dialTransfer` succeeds. -/
  dialOk : Bool
  /-- the handshake write succeeds. -/
  handshakeOk : Bool
  /-- all network writes in `sendFlattenedFileObject` succeed. -/
  connOk : Bool
deriving DecidableEq, Repr

/-- `resForkSize := resInfo.Size() - 82` — Go `int64` arithmetic, so
negative for a sidecar smaller than 82 bytes. -/
def sidecarResForkSize (sidecar : Option (List Nat)) : Int :=
  match sidecar with
  | none => 0
  | some c => (c.length : Int) - 82

/-- `hasResourceFork = resForkSize > 0` (part_006 lines 586-590 and
657-667); `false` when the sidecar does not exist. -/
def hasResourceFork (sidecar : Option (List Nat)) : Bool :=
  match sidecar with
  | none => false
  | some c => decide (0 < (c.length : Int) - 82)

/-- The fork count written into the FFO header by
`sendFlattenedFileObject`: 3 when a resource fork is sent, else 2. -/
def uploadForkCount (sidecar : Option (List Nat)) : Nat :=
  if hasResourceFork sidecar then 3 else 2

/-- The 24-byte FlatFileHeader built by `sendFlattenedFileObject`
(lines 670-681): zeros, version 1 at [4:6], fork count at [22:24]. -/
def buildFFOHeader (forkCnt : Nat) : List Nat :=
  let h := List.replicate 24 0
  let h := writeAt h 4 (be16 1)
  writeAt h 22 (be16 forkCnt)

/-- The 16-byte data fork header (lines 693-701): "DATA", zeros,
big-endian size at [12:16]. -/
def buildDataForkHeader (size : Nat) : List Nat :=
  let h := List.replicate 16 0
  let h := writeAt h 0 [0x44, 0x41, 0x54, 0x41]
  writeAt h 12 (be32 size)

/-- The 16-byte resource fork header (lines 713-716): "MACR", zeros,
big-endian size at [12:16]. -/
def buildResForkHeader (size : Nat) : List Nat :=
  let h := List.replicate 16 0
  let h := writeAt h 0 [0x4D, 0x41, 0x43, 0x52]
  writeAt h 12 (be32 size)

/-- The byte stream `sendFlattenedFileObject` writes to the connection on a
fully successful run: FFO header, info fork (header+data from
`createInfoFork`), data fork header, file data, and — exactly when
`hasResourceFork` — the resource fork header followed by the sidecar
contents after the 82-byte seek (`resForkSize = len − 82` bytes, i.e.
`drop 82`). -/
def sendFlattenedFileObject (env : UploadEnv) : List Nat :=
  buildFFOHeader (uploadForkCount env.sidecar) ++
  env.infoFork ++
  buildDataForkHeader env.fileData.length ++
  env.fileData ++
  (if hasResourceFork env.sidecar then
    buildResForkHeader (sidecarResForkSize env.sidecar).toNat ++
      (match env.sidecar with
       | some c => c.drop 82
       | none => [])
   else [])

/-- Result of one `performFileUpload` run. -/
structure UploadResult where
  status : TaskStatus
  error : Option String
  /-- bytes written to the connection after the handshake. -/
  sent : List Nat
  /-- the computed total transfer size used in the handshake. -/
  totalSize : Nat
deriving DecidableEq, Repr

/-- `performFileUpload` (part_006 lines 547-647), including its deferred
completion block: compute the total size
`24 + len(infoFork) + 16 + fileSize (+ 16 + resForkSize)`, dial,
handshake, then `sendFlattenedFileObject`; any failure sets Failed with a
stage-labelled error, otherwise the deferred block completes the task. -/
def performFileUpload (env : UploadEnv) : UploadResult :=
  if env.openOk = false then
    ⟨TaskStatus.failed, some "open file failed", [], 0⟩
  else if env.statOk = false then
    ⟨TaskStatus.failed, some "stat file failed", [], 0⟩
  else
    let totalSize := 24 + env.infoFork.length + 16 + env.fileData.length +
      (if hasResourceFork env.sidecar then 16 + (sidecarResForkSize env.sidecar).toNat else 0)
    if env.dialOk = false then
      ⟨TaskStatus.failed, some "connection failed", [], totalSize⟩
    else if env.handshakeOk = false then
      ⟨TaskStatus.failed, some "handshake failed", [], totalSize⟩
    else if env.connOk = false then
      ⟨TaskStatus.failed, some "upload failed", [], totalSize⟩
    else
      ⟨TaskStatus.completed, none, sendFlattenedFileObject env, totalSize⟩

/-! ## Task status life cycle (C5)

The statuses a task's `Status` field takes on, in program order, over one
download or upload, as written by the creation site, the reply handlers,
the worker, and `handleTaskStatusMsg` applying the worker's final
status message. -/

/-- Rank of a status along Pending → Active → terminal. -/
def statusRank : TaskStatus → Nat
  | TaskStatus.pending => 0
  | TaskStatus.active => 1
  | TaskStatus.completed => 2
  | TaskStatus.failed => 2

/-- Completed and Failed are the terminal statuses. -/
def isTerminal (s : TaskStatus) : Bool :=
  decide (s = TaskStatus.completed ∨ s = TaskStatus.failed)

/-- One legal step of the life cycle: never backward in rank, and a
terminal status is never left. -/
def forwardStep (a b : TaskStatus) : Prop :=
  statusRank a ≤ statusRank b ∧ (isTerminal a = true → b = a)

/-- A status history only ever moves forward. -/
def ForwardOnly (l : List TaskStatus) : Prop :=
  List.Chain' forwardStep l

/-- The statuses a download task passes through, in program order:
created Pending (part_011), set Active by `handleDownloadReplyMsg`, the
worker's single terminal write, and `handleTaskStatusMsg` re-applying the
worker's final status from its message. -/
def downloadStatusTrace (env : DownloadEnv) (transferSize : Nat) : List TaskStatus :=
  let afterReply := handleDownloadReply newDownloadTask transferSize
  let r := performFileTransfer env
  let final := finishDownloadTask afterReply r
  [newDownloadTask.status, afterReply.status, final.status,
   (applyTaskStatusMsg final r.status r.error).status]

/-- The status updates applied to an upload task whose relative order the
code does fix: `handleUploadReplyMsg` sets Active, then the worker (spawned
by that handler) performs its single terminal write, then
`handleTaskStatusMsg` applies the worker's final `taskStatusMsg`. -/
def uploadBackbone (env : UploadEnv) : List TaskStatus :=
  [TaskStatus.active, (performFileUpload env).status, (performFileUpload env).status]

/-- The statuses an upload task's Status field takes on, in order of
application.  `initiateFileUpload` (model.go lines 542-586) creates the
task Pending and, from its command goroutine, returns a Pending
`taskStatusMsg`; the reply, the worker's write and the worker's final
message come from other goroutines, and the code fixes their relative
order (`uploadBackbone`) but not where the Pending message's delivery
lands among them.  `handleTaskStatusMsg` applies any message's status
unconditionally, so the Pending message contributes a Pending entry at an
arbitrary position `k` (0-3 backbone events late). -/
def uploadStatusTrace (env : UploadEnv) (k : Nat) : List TaskStatus :=
  TaskStatus.pending ::
    ((uploadBackbone env).take k ++
      (applyTaskStatusMsg ⟨TaskStatus.pending, env.fileData.length, 0, none⟩
          TaskStatus.pending none).status ::
      (uploadBackbone env).drop k)

/-- One legal life-cycle step is decidable. -/
instance forwardStepDecidable : DecidableRel forwardStep := fun a b =>
  decidable_of_iff (statusRank a ≤ statusRank b ∧ (isTerminal a = true → b = a)) Iff.rfl

/-- Forward-onliness of a concrete history is decidable (by structural
recursion, so that concrete histories evaluate). -/
instance forwardOnlyDecidable : (l : List TaskStatus) → Decidable (ForwardOnly l)
  | [] => isTrue List.chain'_nil
  | [s] => isTrue (List.chain'_singleton s)
  | a :: b :: rest =>
    match forwardStepDecidable a b, forwardOnlyDecidable (b :: rest) with
    | isTrue h1, isTrue h2 => isTrue (List.chain'_cons.mpr ⟨h1, h2⟩)
    | isFalse h1, _ => isFalse (fun hc => h1 (List.chain'_cons.mp hc).1)
    | _, isFalse h2 => isFalse (fun hc => h2 (List.chain'_cons.mp hc).2)

/-! ## Download path-conflict resolution (part_006 lines 484-501)

The filesystem is modelled as the list of file names that already exist in
the download directory; `filepath.Join` with the fixed directory is
dropped, so the function works on bare names. -/

/-- `filepath.Ext` scan on the reversed character list: walk back from the
end, stop at a path separator, return from the last `.` (dot included). -/
def extFromRev (acc : List Char) : List Char → String
  | [] => ""
  | c :: rest =>
    if c = '/' then ""
    else if c = '.' then String.mk ('.' :: acc)
    else extFromRev (c :: acc) rest

/-- Go's `filepath.Ext`. -/
def fileExt (s : String) : String :=
  extFromRev [] s.data.reverse

/-- Go's `strings.TrimSuffix` on byte (here: character) content. -/
def trimSuffix (s suffix : String) : String :=
  if suffix.data.IsSuffix s.data then
    String.mk (s.data.take (s.data.length - suffix.data.length))
  else s

/-- The candidate name `fmt.Sprintf("%s (%d)%s", nameWithoutExt, i, ext)`
for index `i`. -/
def candidateName (fileName : String) (i : Nat) : String :=
  let ext := fileExt fileName
  let nameWithoutExt := trimSuffix fileName ext
  nameWithoutExt ++ " (" ++ Nat.repr i ++ ")" ++ ext

/-- The `for i := 1; ; i++` search: first index whose candidate name does
not exist.  The Go loop is unbounded; since at most `existing.length`
candidates can collide, fuel `existing.length + 1` reaches a free name
whenever the candidates are distinct, and the search is modelled with that
fuel, returning `none` only when the fuel runs out. -/
def findFreeName (existing : List String) (fileName : String) : Nat → Nat → Option String
  | 0, _ => none
  | fuel + 1, i =>
    let cand := candidateName fileName i
    if cand ∈ existing then findFreeName existing fileName fuel (i + 1)
    else some cand

/-- `resolveDownloadPath` (part_006 lines 484-501): the target name
unchanged when unused, otherwise the first free `name (i)ext`. -/
def resolveDownloadPath (existing : List String) (fileName : String) : Option String :=
  if fileName ∈ existing then
    findFreeName existing fileName (existing.length + 1) 1
  else some fileName

/-! ## Concrete scenarios used as witnesses and counterexamples -/

/-- A download run whose server stream is a 56-byte FFO: 24-byte header
with fork count 2, a 16-byte info-fork header declaring 0 info bytes, and
a 16-byte data-fork header declaring 0 data bytes; every local step
succeeds. -/
def downloadEnvZeroData : DownloadEnv :=
  ⟨true, true, true, true,
   List.replicate 22 0 ++ [0, 2] ++ List.replicate 16 0 ++ List.replicate 16 0,
   false, true, true, true⟩

/-- A download run whose stream declares fork count 3 and a 2-byte data
fork, delivers the two data bytes, and is then cut off before the
resource-fork header; every local step succeeds. -/
def downloadEnvResTrunc : DownloadEnv :=
  ⟨true, true, true, true,
   List.replicate 22 0 ++ [0, 3] ++ List.replicate 16 0 ++
     (List.replicate 12 0 ++ [0, 0, 0, 2]) ++ [9, 9],
   false, true, true, true⟩

/-- An upload of a 3-byte file whose sidecar file is only 10 bytes —
smaller than the 82-byte AppleDouble header, so no resource fork. -/
def uploadEnvTinySidecar : UploadEnv :=
  ⟨true, true, [1, 2, 3], some (List.replicate 10 0), List.replicate 5 0,
   true, true, true⟩

/-- A fully successful upload of a 3-byte file with no sidecar. -/
def uploadEnvPlain : UploadEnv :=
  ⟨true, true, [1, 2, 3], none, List.replicate 5 0, true, true, true⟩

/-! ## Theorems -/

/-- C1: the transfer-port handshake is exactly 16 bytes: the ASCII magic
"HTXF", the 4-byte reference number copied verbatim, the big-endian uint32
total transfer size, and four zero bytes; concretely, for
referenceNumber 00 00 00 07 and totalSize 1024 the bytes are
48 54 58 46 00 00 00 07 00 00 04 00 00 00 00 00. -/
theorem handshake_bytes (r : List Nat) (s : Nat) (hr : r.length = 4) :
    buildHandshake r s = [0x48, 0x54, 0x58, 0x46] ++ r ++ be32 s ++ [0, 0, 0, 0] ∧
    (buildHandshake r s).length = 16 ∧
    buildHandshake [0x00, 0x00, 0x00, 0x07] 1024 =
      [0x48, 0x54, 0x58, 0x46, 0x00, 0x00, 0x00, 0x07,
       0x00, 0x00, 0x04, 0x00, 0x00, 0x00, 0x00, 0x00] := by
  match r, hr with
  | [a, b, c, d], _ => exact ⟨rfl, rfl, by decide⟩

/-- Witness for `handshake_bytes` at the concrete input of the claim. -/
theorem handshake_bytes_witness :
    buildHandshake [0x00, 0x00, 0x00, 0x07] 1024 =
      [0x48, 0x54, 0x58, 0x46, 0x00, 0x00, 0x00, 0x07,
       0x00, 0x00, 0x04, 0x00, 0x00, 0x00, 0x00, 0x00] ∧
    (buildHandshake [0x00, 0x00, 0x00, 0x07] 1024).length = 16 :=
  ⟨(handshake_bytes [0x00, 0x00, 0x00, 0x07] 1024 rfl).2.2,
   (handshake_bytes [0x00, 0x00, 0x00, 0x07] 1024 rfl).2.1⟩

set_option maxRecDepth 8000 in
/-- C4: the sidecar round-trip is broken in the code.  The header writer
emits only 38 bytes (magic 4 + version 4 + filler 16 + count 2 + one
12-byte descriptor), while its own descriptor declares offset 82 and the
upload reader skips 82 bytes; for a 100-byte resource fork the sidecar
file is 138 bytes and reading it back past 82 bytes recovers only the last
56 payload bytes, and `size − 82` is 56, not 100. -/
theorem sidecar_roundtrip_loses_bytes :
    (writeAppleDoubleHeader 100).length = 38 ∧
    (sidecarFile (List.replicate 100 7)).length = 138 ∧
    sidecarReadBack (sidecarFile (List.replicate 100 7)) = List.replicate 56 7 ∧
    sidecarReadBack (sidecarFile (List.replicate 100 7)) ≠ List.replicate 100 7 ∧
    (sidecarFile (List.replicate 100 7)).length - 82 = 56 := by decide

/-- `getCompletedLoop` is filter-then-take on its input list. -/
theorem getCompletedLoop_eq_filter_take (l : List TMTask) :
    ∀ limit, getCompletedLoop limit l = (l.filter isCompletedOrFailed).take limit := by
  induction l with
  | nil => intro limit; simp [getCompletedLoop]
  | cons t rest ih =>
    intro limit
    cases limit with
    | zero => simp [getCompletedLoop]
    | succ k =>
      by_cases h : t.status = TaskStatus.completed ∨ t.status = TaskStatus.failed
      · simp [getCompletedLoop, h, isCompletedOrFailed, List.filter_cons, ih]
      · simp [getCompletedLoop, h, isCompletedOrFailed, List.filter_cons, ih]

/-- C6: `GetCompleted limit` returns at most `limit` tasks, all of them
Completed or Failed, in reverse insertion order (newest first); with tasks
A, B, C added and completed in that order, `GetCompleted 2 = [C, B]`. -/
theorem GetCompleted_spec (order : List TMTask) (limit : Nat) :
    (GetCompleted order limit).length ≤ limit ∧
    (∀ t ∈ GetCompleted order limit,
        t.status = TaskStatus.completed ∨ t.status = TaskStatus.failed) ∧
    GetCompleted order limit = (order.reverse.filter isCompletedOrFailed).take limit ∧
    GetCompleted [⟨"A", TaskStatus.completed⟩, ⟨"B", TaskStatus.completed⟩,
        ⟨"C", TaskStatus.completed⟩] 2 =
      [⟨"C", TaskStatus.completed⟩, ⟨"B", TaskStatus.completed⟩] := by
  refine ⟨?_, ?_, ?_, by decide⟩
  · rw [GetCompleted, getCompletedLoop_eq_filter_take]
    exact List.length_take_le _ _
  · intro t ht
    rw [GetCompleted, getCompletedLoop_eq_filter_take] at ht
    have := List.of_mem_filter (List.mem_of_mem_take ht)
    simpa [isCompletedOrFailed] using this
  · rw [GetCompleted, getCompletedLoop_eq_filter_take]

/-- Witness for `GetCompleted_spec`: the head of the concrete result is
indeed terminal. -/
theorem GetCompleted_spec_witness :
    (⟨"C", TaskStatus.completed⟩ : TMTask).status = TaskStatus.completed ∨
    (⟨"C", TaskStatus.completed⟩ : TMTask).status = TaskStatus.failed :=
  (GetCompleted_spec [⟨"A", TaskStatus.completed⟩, ⟨"B", TaskStatus.completed⟩,
      ⟨"C", TaskStatus.completed⟩] 2).2.1
    ⟨"C", TaskStatus.completed⟩ (by decide)

/-- C3 counterexample: a source that delivers no bytes and then signals
end-of-stream, with totalSize 5: the copy returns a nil error (success)
although only 0 of 5 bytes were written — the code tolerates every short
read, it does not return a TransferError. -/
theorem copy_short_read_returns_nil :
    (copyWithProgress true [ReadResult.eof] 5).error = none ∧
    (copyWithProgress true [ReadResult.eof] 5).written = 0 := by decide

/-- Unfolding: the loop with an exhausted source. -/
theorem copyLoop_nil (dstOk : Bool) (size w : Nat) (out : List Nat) :
    copyLoop dstOk size [] w out = ⟨w, out, [], none⟩ := by
  rw [copyLoop.eq_def]
  split <;> rfl

/-- Unfolding: the loop once `written` has reached `size`. -/
theorem copyLoop_done (dstOk : Bool) (size : Nat) (src : List ReadResult)
    (w : Nat) (out : List Nat) (h : ¬ w < size) :
    copyLoop dstOk size src w out = ⟨w, out, src, none⟩ := by
  rw [copyLoop.eq_def, if_neg h]

/-- Unfolding: an EOF read inside the loop. -/
theorem copyLoop_eof (dstOk : Bool) (size : Nat) (rest : List ReadResult)
    (w : Nat) (out : List Nat) (h : w < size) :
    copyLoop dstOk size (ReadResult.eof :: rest) w out = ⟨w, out, rest, none⟩ := by
  rw [copyLoop.eq_def, if_pos h]

/-- Unfolding: a failing read inside the loop. -/
theorem copyLoop_ioError (dstOk : Bool) (size : Nat) (rest : List ReadResult)
    (w : Nat) (out : List Nat) (h : w < size) :
    copyLoop dstOk size (ReadResult.ioError :: rest) w out =
      ⟨w, out, rest, some CopyError.readErr⟩ := by
  rw [copyLoop.eq_def, if_pos h]

/-- Unfolding: a successful read inside the loop. -/
theorem copyLoop_chunk (dstOk : Bool) (size : Nat) (data : List Nat)
    (rest : List ReadResult) (w : Nat) (out : List Nat) (h : w < size) :
    copyLoop dstOk size (ReadResult.chunk data :: rest) w out =
      (if 0 < (data.take (min bufSize (size - w))).length ∧ dstOk = false then
        ⟨w, out, rest, some CopyError.writeErr⟩
      else
        copyLoop dstOk size rest (w + (data.take (min bufSize (size - w))).length)
          (out ++ data.take (min bufSize (size - w)))) := by
  rw [copyLoop.eq_def, if_pos h]

/-- The copy loop never reports an error when the destination accepts all
writes and the source never returns a non-EOF read error. -/
theorem copyLoop_no_ioError (size : Nat) (src : List ReadResult) :
    ∀ w out, (∀ r ∈ src, r ≠ ReadResult.ioError) →
      (copyLoop true size src w out).error = none := by
  induction src with
  | nil =>
    intro w out _
    rw [copyLoop_nil]
  | cons r rest ih =>
    intro w out h
    by_cases hws : w < size
    · cases r with
      | chunk data =>
        rw [copyLoop_chunk _ _ _ _ _ _ hws,
          if_neg (by simp : ¬(0 < (data.take (min bufSize (size - w))).length ∧ true = false))]
        exact ih _ _ (fun x hx => h x (List.mem_cons_of_mem _ hx))
      | eof => rw [copyLoop_eof _ _ _ _ _ hws]
      | ioError => exact absurd rfl (h ReadResult.ioError (List.mem_cons_self _ _))
    · rw [copyLoop_done _ _ _ _ _ hws]

/-- The copy loop never counts past `size`: it caps each read at
`size − written`, so the final count is at most `size`, and the output
grows by exactly the counted bytes. -/
theorem copyLoop_written_bound (dstOk : Bool) (size : Nat) (src : List ReadResult) :
    ∀ w out, w ≤ size →
      (copyLoop dstOk size src w out).written ≤ size ∧
      (copyLoop dstOk size src w out).out.length + w =
        (copyLoop dstOk size src w out).written + out.length := by
  induction src with
  | nil =>
    intro w out hw
    rw [copyLoop_nil]
    exact ⟨hw, Nat.add_comm _ _⟩
  | cons r rest ih =>
    intro w out hw
    by_cases hws : w < size
    · cases r with
      | chunk data =>
        rw [copyLoop_chunk _ _ _ _ _ _ hws]
        by_cases hc : 0 < (data.take (min bufSize (size - w))).length ∧ dstOk = false
        · rw [if_pos hc]
          exact ⟨hw, Nat.add_comm _ _⟩
        · rw [if_neg hc]
          have hgot : (data.take (min bufSize (size - w))).length ≤ size - w :=
            le_trans (List.length_take_le _ _) (Nat.min_le_right _ _)
          have h2 := ih (w + (data.take (min bufSize (size - w))).length)
            (out ++ data.take (min bufSize (size - w))) (by omega)
          refine ⟨h2.1, ?_⟩
          have h3 := h2.2
          rw [List.length_append] at h3
          omega
      | eof =>
        rw [copyLoop_eof _ _ _ _ _ hws]
        exact ⟨hw, Nat.add_comm _ _⟩
      | ioError =>
        rw [copyLoop_ioError _ _ _ _ _ hws]
        exact ⟨hw, Nat.add_comm _ _⟩
    · rw [copyLoop_done _ _ _ _ _ hws]
      exact ⟨hw, Nat.add_comm _ _⟩

/-- C3 amended: the copy treats end-of-stream before `totalSize` as
success unconditionally — whenever the destination accepts all writes and
the source never returns a non-EOF error, the copy returns a nil error,
whatever number of bytes (at most `totalSize`) arrived before EOF. -/
theorem copy_eof_is_success (src : List ReadResult) (size : Nat)
    (h : ∀ r ∈ src, r ≠ ReadResult.ioError) :
    (copyWithProgress true src size).error = none ∧
    (copyWithProgress true src size).written ≤ size :=
  ⟨copyLoop_no_ioError size src 0 [] h,
   (copyLoop_written_bound true size src 0 [] (Nat.zero_le _)).1⟩

/-- Witness for `copy_eof_is_success`: a source delivering 3 of 7 declared
bytes then EOF still yields a nil error. -/
theorem copy_eof_is_success_witness :
    (copyWithProgress true [ReadResult.chunk [1, 2, 3], ReadResult.eof] 7).error = none ∧
    (copyWithProgress true [ReadResult.chunk [1, 2, 3], ReadResult.eof] 7).written ≤ 7 :=
  copy_eof_is_success [ReadResult.chunk [1, 2, 3], ReadResult.eof] 7 (by decide)

/-- C9: the progress-tracking copy writes at most `size` bytes to the
destination — each read is capped at `size − written` — and once `size`
bytes are written it stops reading, so with `size = 0` the source is left
untouched for the next fork on the same connection. -/
theorem copy_writes_at_most_size (dstOk : Bool) (src : List ReadResult) (size : Nat) :
    (copyWithProgress dstOk src size).out.length ≤ size ∧
    (copyWithProgress dstOk src size).written = (copyWithProgress dstOk src size).out.length ∧
    (copyWithProgress dstOk src 0).rest = src := by
  have h := copyLoop_written_bound dstOk size src 0 [] (Nat.zero_le _)
  have h1 := h.1
  have h2 := h.2
  rw [List.length_nil] at h2
  refine ⟨?_, ?_, ?_⟩
  · unfold copyWithProgress
    omega
  · unfold copyWithProgress
    omega
  · rw [copyWithProgress, copyLoop_done]
    omega

/-- The in-pipeline data-fork copy counts exactly the bytes it wrote and
never more than the declared size. -/
theorem pipeCopyData_spec (size : Nat) (avail : List Nat) (fw eoe : Bool) :
    (pipeCopyData size avail fw eoe).written =
      (pipeCopyData size avail fw eoe).fileBytes.length ∧
    (pipeCopyData size avail fw eoe).written ≤ size := by
  unfold pipeCopyData
  split_ifs <;> simp [List.length_take]

/-- On every exit of the download pipeline's data phase, the transferred
count equals the bytes in the local file and is at most the declared
data-fork size. -/
theorem dataPhase_accounting (env : DownloadEnv) :
    (∀ f, dataPhase env = Sum.inl f →
      f.transferred = f.fileBytes.length ∧ f.transferred ≤ f.dataForkSize) ∧
    (∀ d, dataPhase env = Sum.inr d →
      d.transferred = d.fileBytes.length ∧ d.transferred ≤ d.dataForkSize) := by
  unfold dataPhase
  repeat' split
  all_goals constructor
  all_goals intro x hx
  all_goals first
    | exact Sum.noConfusion hx
    | (injection hx with h; subst h; exact ⟨rfl, Nat.zero_le _⟩)
    | (injection hx with h; subst h;
       exact ⟨(pipeCopyData_spec _ _ _ _).1, (pipeCopyData_spec _ _ _ _).2⟩)

/-- The data phase never inspects the resource-fork success flags. -/
theorem dataPhase_res_congr (env : DownloadEnv) (rc rh : Bool) :
    dataPhase { env with resCreateOk := rc, resHeaderWriteOk := rh } = dataPhase env := rfl

/-- The download worker always ends with a terminal status. -/
theorem performFileTransfer_status_terminal (env : DownloadEnv) :
    (performFileTransfer env).status = TaskStatus.completed ∨
    (performFileTransfer env).status = TaskStatus.failed := by
  unfold performFileTransfer
  cases dataPhase env with
  | inl f => right; rfl
  | inr d => left; rfl

/-- The upload worker always ends with a terminal status. -/
theorem performFileUpload_status_terminal (env : UploadEnv) :
    (performFileUpload env).status = TaskStatus.completed ∨
    (performFileUpload env).status = TaskStatus.failed := by
  unfold performFileUpload
  split_ifs <;> simp

/-- C2 counterexample: a fully successful download of the concrete
scenario — declared dataForkSize 0, forkCount 2, server-declared transfer
size 56 (the size of the whole 56-byte flattened file object) — completes
with an empty local file and TransferredBytes 0, but TotalBytes is 56, the
control-channel transfer size, not the data-fork size: the claimed
equality TransferredBytes = TotalBytes = data-fork size fails. -/
theorem download_totalBytes_not_dataForkSize :
    (finishDownloadTask (handleDownloadReply newDownloadTask 56)
      (performFileTransfer downloadEnvZeroData)).status = TaskStatus.completed ∧
    (performFileTransfer downloadEnvZeroData).dataForkSize = 0 ∧
    (performFileTransfer downloadEnvZeroData).fileBytes = [] ∧
    (finishDownloadTask (handleDownloadReply newDownloadTask 56)
      (performFileTransfer downloadEnvZeroData)).transferredBytes = 0 ∧
    (finishDownloadTask (handleDownloadReply newDownloadTask 56)
      (performFileTransfer downloadEnvZeroData)).totalBytes = 56 ∧
    ¬ (finishDownloadTask (handleDownloadReply newDownloadTask 56)
        (performFileTransfer downloadEnvZeroData)).transferredBytes =
      (finishDownloadTask (handleDownloadReply newDownloadTask 56)
        (performFileTransfer downloadEnvZeroData)).totalBytes := by decide

/-- C2 amended: for every completed download, TransferredBytes equals the
number of data-fork bytes written to the local file, which is at most the
declared data-fork size (equal to it when the stream delivers it in
full), while TotalBytes equals the transfer size declared on the control
channel — the whole flattened-file-object size, not the data-fork size;
the concrete scenario (declared dataForkSize 0, forkCount 2) completes
with an empty local file, TransferredBytes 0 and TotalBytes equal to the
declared transfer size. -/
theorem download_completed_byte_accounting (env : DownloadEnv) (transferSize : Nat) :
    ((performFileTransfer env).status = TaskStatus.completed →
      (finishDownloadTask (handleDownloadReply newDownloadTask transferSize)
          (performFileTransfer env)).transferredBytes =
        (performFileTransfer env).fileBytes.length ∧
      (performFileTransfer env).transferred ≤ (performFileTransfer env).dataForkSize) ∧
    (finishDownloadTask (handleDownloadReply newDownloadTask transferSize)
        (performFileTransfer env)).totalBytes = transferSize ∧
    (performFileTransfer downloadEnvZeroData).status = TaskStatus.completed ∧
    (performFileTransfer downloadEnvZeroData).fileBytes = [] ∧
    (performFileTransfer downloadEnvZeroData).transferred = 0 := by
  refine ⟨fun _ => ?_, rfl, by decide, by decide, by decide⟩
  show (performFileTransfer env).transferred = (performFileTransfer env).fileBytes.length ∧
    (performFileTransfer env).transferred ≤ (performFileTransfer env).dataForkSize
  unfold performFileTransfer
  cases h : dataPhase env with
  | inl f => exact (dataPhase_accounting env).1 f h
  | inr d => exact (dataPhase_accounting env).2 d h

/-- Witness for `download_completed_byte_accounting` at the concrete
zero-data scenario. -/
theorem download_completed_byte_accounting_witness :
    (finishDownloadTask (handleDownloadReply newDownloadTask 56)
        (performFileTransfer downloadEnvZeroData)).transferredBytes =
      (performFileTransfer downloadEnvZeroData).fileBytes.length ∧
    (performFileTransfer downloadEnvZeroData).transferred ≤
      (performFileTransfer downloadEnvZeroData).dataForkSize :=
  (download_completed_byte_accounting downloadEnvZeroData 56).1 (by decide)

/-- C5 counterexample: an admissible delivery order for a fully successful
upload — the Pending `taskStatusMsg` returned by `initiateFileUpload`
delivered one backbone event late, i.e. after `handleUploadReplyMsg` has
already set the task Active — makes `handleTaskStatusMsg` (which applies
any message's status unconditionally) move the status backward from
Active to Pending: the applied sequence is not forward-only. -/
theorem upload_status_can_move_backward :
    uploadStatusTrace uploadEnvPlain 1 =
      [TaskStatus.pending, TaskStatus.active, TaskStatus.pending,
       TaskStatus.completed, TaskStatus.completed] ∧
    ¬ ForwardOnly (uploadStatusTrace uploadEnvPlain 1) := by decide

/-- Delivering the Pending message three or more events late puts it at
the end of the applied sequence. -/
theorem uploadStatusTrace_of_three_le (env : UploadEnv) (k : Nat) (hk : 3 ≤ k) :
    uploadStatusTrace env k =
      [TaskStatus.pending, TaskStatus.active, (performFileUpload env).status,
       (performFileUpload env).status, TaskStatus.pending] := by
  unfold uploadStatusTrace uploadBackbone
  rw [List.take_of_length_le (by simp; omega), List.drop_eq_nil_of_le (by simp; omega)]
  rfl

/-- C5 amended: a download task's status only moves forward along
Pending → Active → {Completed, Failed} (its updates are totally ordered by
the code); an upload task's status moves only forward exactly when the
Pending status message from `initiateFileUpload` is delivered before
`handleUploadReplyMsg` sets the task Active — the code does not enforce
that delivery order, and for every later delivery position the
unconditional `handleTaskStatusMsg` assignment moves an Active or
terminal status backward to Pending. -/
theorem task_status_forward_only_amended (env : DownloadEnv) (transferSize : Nat)
    (uenv : UploadEnv) (k : Nat) :
    ForwardOnly (downloadStatusTrace env transferSize) ∧
    ForwardOnly (uploadStatusTrace uenv 0) ∧
    (1 ≤ k → ¬ ForwardOnly (uploadStatusTrace uenv k)) := by
  refine ⟨?_, ?_, fun hk => ?_⟩
  · show ForwardOnly [TaskStatus.pending, TaskStatus.active,
      (performFileTransfer env).status, (performFileTransfer env).status]
    rcases performFileTransfer_status_terminal env with h | h <;> rw [h] <;> decide
  · show ForwardOnly [TaskStatus.pending, TaskStatus.pending, TaskStatus.active,
      (performFileUpload uenv).status, (performFileUpload uenv).status]
    rcases performFileUpload_status_terminal uenv with h | h <;> rw [h] <;> decide
  · match k, hk with
    | 1, _ =>
      show ¬ ForwardOnly [TaskStatus.pending, TaskStatus.active, TaskStatus.pending,
        (performFileUpload uenv).status, (performFileUpload uenv).status]
      rcases performFileUpload_status_terminal uenv with h | h <;> rw [h] <;> decide
    | 2, _ =>
      show ¬ ForwardOnly [TaskStatus.pending, TaskStatus.active,
        (performFileUpload uenv).status, TaskStatus.pending,
        (performFileUpload uenv).status]
      rcases performFileUpload_status_terminal uenv with h | h <;> rw [h] <;> decide
    | n + 3, _ =>
      rw [uploadStatusTrace_of_three_le uenv (n + 3) (by omega)]
      rcases performFileUpload_status_terminal uenv with h | h <;> rw [h] <;> decide

/-- Witness for `task_status_forward_only_amended`: delivering the Pending
message two events late (after the worker already wrote its terminal
status) leaves a non-forward-only sequence. -/
theorem task_status_forward_only_amended_witness :
    ¬ ForwardOnly (uploadStatusTrace uploadEnvPlain 2) :=
  (task_status_forward_only_amended
      ⟨true, true, true, true, [], false, true, true, true⟩ 56 uploadEnvPlain 2).2.2
    (by decide)

/-- C8: once the data fork has been copied, the download worker completes
the task with a nil error no matter what happens in the resource-fork
section (its success flags never influence status, error or byte count);
any failure before data-fork completion leaves the task Failed with its
causing error attached. -/
theorem download_resource_failure_nonfatal (env : DownloadEnv) :
    ((performFileTransfer env).dataForkDone = true →
      (performFileTransfer env).status = TaskStatus.completed ∧
      (performFileTransfer env).error = none) ∧
    ((performFileTransfer env).dataForkDone = false →
      (performFileTransfer env).status = TaskStatus.failed ∧
      (performFileTransfer env).error ≠ none) ∧
    (∀ rc rh,
      (performFileTransfer { env with resCreateOk := rc, resHeaderWriteOk := rh }).status =
        (performFileTransfer env).status ∧
      (performFileTransfer { env with resCreateOk := rc, resHeaderWriteOk := rh }).error =
        (performFileTransfer env).error ∧
      (performFileTransfer { env with resCreateOk := rc, resHeaderWriteOk := rh }).transferred =
        (performFileTransfer env).transferred) := by
  refine ⟨?_, ?_, ?_⟩
  · unfold performFileTransfer
    cases dataPhase env with
    | inl f => intro h; exact absurd h (by simp)
    | inr d => intro _; exact ⟨rfl, rfl⟩
  · unfold performFileTransfer
    cases dataPhase env with
    | inl f => intro _; exact ⟨rfl, by simp⟩
    | inr d => intro h; exact absurd h (by simp)
  · intro rc rh
    unfold performFileTransfer
    rw [dataPhase_res_congr]
    cases dataPhase env with
    | inl f => exact ⟨rfl, rfl, rfl⟩
    | inr d => exact ⟨rfl, rfl, rfl⟩

/-- Witness for `download_resource_failure_nonfatal`: the run whose stream
is cut off before the resource-fork header still completes with no
error. -/
theorem download_resource_failure_nonfatal_witness :
    (performFileTransfer downloadEnvResTrunc).status = TaskStatus.completed ∧
    (performFileTransfer downloadEnvResTrunc).error = none :=
  (download_resource_failure_nonfatal downloadEnvResTrunc).1 (by decide)

/-- A sidecar is treated as a resource fork exactly when it exists and is
strictly larger than the 82-byte AppleDouble header. -/
theorem hasResourceFork_iff (sc : Option (List Nat)) :
    hasResourceFork sc = true ↔ ∃ c, sc = some c ∧ 82 < c.length := by
  cases sc with
  | none => simp [hasResourceFork]
  | some c =>
    simp only [hasResourceFork, decide_eq_true_eq, Option.some.injEq]
    constructor
    · intro h; exact ⟨c, rfl, by omega⟩
    · rintro ⟨c', rfl, h⟩; omega

/-- C10: on upload, the container's fork count is 3 exactly when the
sidecar file exists and is strictly larger than 82 bytes; a sidecar of at
most 82 bytes (or no sidecar) is treated as no resource fork: the fork
count is 2 and the stream sent is exactly header, info fork, data-fork
header and data — no resource-fork header or bytes. -/
theorem upload_sidecar_forkcount (env : UploadEnv) :
    (uploadForkCount env.sidecar = 3 ↔ ∃ c, env.sidecar = some c ∧ 82 < c.length) ∧
    (∀ c, env.sidecar = some c → c.length ≤ 82 →
      sendFlattenedFileObject env =
        buildFFOHeader 2 ++ env.infoFork ++
          buildDataForkHeader env.fileData.length ++ env.fileData) ∧
    (env.sidecar = none →
      sendFlattenedFileObject env =
        buildFFOHeader 2 ++ env.infoFork ++
          buildDataForkHeader env.fileData.length ++ env.fileData) := by
  refine ⟨?_, ?_, ?_⟩
  · unfold uploadForkCount
    split_ifs with h
    · exact iff_of_true rfl ((hasResourceFork_iff env.sidecar).mp h)
    · refine iff_of_false (by omega) (fun he => ?_)
      exact h ((hasResourceFork_iff env.sidecar).mpr he)
  · intro c hc hlen
    have hrf : hasResourceFork env.sidecar = false := by
      rw [hc]
      simp only [hasResourceFork, decide_eq_false_iff_not]
      omega
    unfold sendFlattenedFileObject uploadForkCount
    rw [hrf]
    simp
  · intro hc
    have hrf : hasResourceFork env.sidecar = false := by
      rw [hc]; rfl
    unfold sendFlattenedFileObject uploadForkCount
    rw [hrf]
    simp

/-- Witness for `upload_sidecar_forkcount`: a 10-byte sidecar yields the
resource-fork-free stream. -/
theorem upload_sidecar_forkcount_witness :
    sendFlattenedFileObject uploadEnvTinySidecar =
      buildFFOHeader 2 ++ uploadEnvTinySidecar.infoFork ++
        buildDataForkHeader uploadEnvTinySidecar.fileData.length ++
        uploadEnvTinySidecar.fileData :=
  (upload_sidecar_forkcount uploadEnvTinySidecar).2.1
    (List.replicate 10 0) (by decide) (by decide)

/-- The index search of `resolveDownloadPath` returns the first free
candidate at or above its starting index. -/
theorem findFreeName_first_free (existing : List String) (fileName : String) :
    ∀ fuel i c, findFreeName existing fileName fuel i = some c →
      ∃ j, i ≤ j ∧ c = candidateName fileName j ∧ c ∉ existing ∧
        ∀ k, i ≤ k → k < j → candidateName fileName k ∈ existing := by
  intro fuel
  induction fuel with
  | zero => intro i c h; exact Option.noConfusion h
  | succ n ih =>
    intro i c h
    rw [findFreeName] at h
    by_cases hmem : candidateName fileName i ∈ existing
    · rw [if_pos hmem] at h
      obtain ⟨j, hij, hc, hnot, hall⟩ := ih (i + 1) c h
      refine ⟨j, by omega, hc, hnot, fun k hk1 hk2 => ?_⟩
      by_cases hki : k = i
      · rw [hki]; exact hmem
      · exact hall k (by omega) hk2
    · rw [if_neg hmem] at h
      injection h with h
      exact ⟨i, le_refl i, h.symm, h ▸ hmem, fun k hk1 hk2 => absurd (lt_of_le_of_lt hk1 hk2) (lt_irrefl i)⟩

/-- C7: path-conflict resolution is a deterministic function of the target
name and the set of existing names: an unused target is returned
unchanged; otherwise the result is `name (j)ext` for the first index `j ≥ 1`
whose candidate is unused; concretely, with "a.txt" and "a (1).txt"
present, "a.txt" resolves to "a (2).txt", and against an empty directory
it resolves to itself. -/
theorem resolveDownloadPath_spec (existing : List String) (fileName : String) :
    (fileName ∉ existing → resolveDownloadPath existing fileName = some fileName) ∧
    (∀ c, resolveDownloadPath existing fileName = some c → fileName ∈ existing →
      ∃ j, 1 ≤ j ∧ c = candidateName fileName j ∧ c ∉ existing ∧
        ∀ k, 1 ≤ k → k < j → candidateName fileName k ∈ existing) ∧
    resolveDownloadPath ["a.txt", "a (1).txt"] "a.txt" = some "a (2).txt" ∧
    resolveDownloadPath [] "a.txt" = some "a.txt" := by
  refine ⟨?_, ?_, by decide, by decide⟩
  · intro h
    rw [resolveDownloadPath, if_neg h]
  · intro c hc hmem
    rw [resolveDownloadPath, if_pos hmem] at hc
    exact findFreeName_first_free existing fileName _ 1 c hc

/-- Witness for `resolveDownloadPath_spec`: resolving against an empty
directory returns the name unchanged. -/
theorem resolveDownloadPath_spec_witness :
    resolveDownloadPath [] "a.txt" = some "a.txt" :=
  (resolveDownloadPath_spec [] "a.txt").1 (by decide)

end Mobius
